import Mathlib

/-!
# Verification of the ldk-server RPC dispatch and codec layer

A shallow embedding of the repository's two source files:

* `src/server/src/service.rs` — the hyper `Service` implementation
  (`NodeService::call` and `handle_request`);
* `src/client/src/client.rs` — the client stub set
  (`LdkNodeServerClient` and `post_request`).

Bytes are modelled as `List Nat`, HTTP bodies that may fail to be collected
as `Except String (List Nat)`, and the hyper response builder as an explicit
state that records whether a previous chained call failed.
-/

/-! ## Codec

The codec used on the wire is prost's protobuf encoding; the prost crate and
the `protos` message crate are collaborators outside the two source files, so
they are modelled from the spec here: a deterministic, total `encode` and a
partial `decode`, following the protobuf wire format (LEB128 varints, tagged
fields, length-delimited byte fields).
-/

/-- Recursion core of the varint encoder; the fuel only serves structural
termination and is irrelevant whenever it is at least the value encoded
(dividing by 128 each step shrinks the value strictly). -/
def encodeVarintFuel : Nat → Nat → List Nat
  | 0, n => [n]
  | fuel + 1, n =>
    if n < 128 then [n] else (n % 128 + 128) :: encodeVarintFuel fuel (n / 128)

/-- LEB128 base-128 varint encoding of a natural number, as used by the
protobuf wire format: low 7 bits per byte, high bit set on every byte but
the last. Total and deterministic. -/
def encodeVarint (n : Nat) : List Nat := encodeVarintFuel n n

/-- LEB128 varint decoding: returns the decoded value and the remaining
bytes, or `none` on truncated input. -/
def decodeVarint : List Nat → Option (Nat × List Nat)
  | [] => none
  | b :: rest =>
    if b < 128 then some (b, rest)
    else
      match decodeVarint rest with
      | some (n, rest2) => some (n * 128 + (b - 128), rest2)
      | none => none

theorem encodeVarintFuel_ne_nil (fuel n : Nat) : encodeVarintFuel fuel n ≠ [] := by
  cases fuel with
  | zero => simp [encodeVarintFuel]
  | succ f =>
    rw [encodeVarintFuel]
    split <;> simp

theorem encodeVarint_ne_nil (n : Nat) : encodeVarint n ≠ [] :=
  encodeVarintFuel_ne_nil n n

theorem decodeVarint_encodeVarintFuel (fuel : Nat) :
    ∀ n, n ≤ fuel → ∀ rest : List Nat,
    decodeVarint (encodeVarintFuel fuel n ++ rest) = some (n, rest) := by
  induction fuel with
  | zero =>
    intro n hn rest
    have h0 : n = 0 := by omega
    subst h0
    simp [encodeVarintFuel, decodeVarint]
  | succ f ih =>
    intro n hn rest
    rw [encodeVarintFuel]
    by_cases h : n < 128
    · simp [h, decodeVarint]
    · have hdivle : n / 128 ≤ f := by
        have := Nat.div_lt_self (n := n) (by omega) (by omega : 1 < 128)
        omega
      have hrec := ih (n / 128) hdivle rest
      simp only [h, if_false, List.cons_append, decodeVarint]
      have hge : ¬ (n % 128 + 128 < 128) := by omega
      simp only [hge, if_false, hrec]
      have : n / 128 * 128 + (n % 128 + 128 - 128) = n := by omega
      rw [this]

theorem decodeVarint_encodeVarint (n : Nat) (rest : List Nat) :
    decodeVarint (encodeVarint n ++ rest) = some (n, rest) :=
  decodeVarint_encodeVarintFuel n n (le_refl n) rest

/-- Modelled from the spec: the message types of the `protos` crate
(`OnchainReceiveRequest`, `OnchainReceiveResponse`, …,
`ListChannelsResponse`) are not under src/; the spec treats them as opaque
structured values with a serialize/deserialize capability. They are
represented by a protobuf message with one length-delimited field
(field number 1) and one optional varint field (field number 2). -/
structure ProtoMsg where
  field1 : List Nat
  field2 : Option Nat
deriving DecidableEq, Repr

/-- Encoding of field 1 (length-delimited, key byte `1 <<< 3 ||| 2 = 10`);
in proto3 a field holding its default value is omitted. -/
def encodeField1 (l : List Nat) : List Nat :=
  if l = [] then [] else encodeVarint 10 ++ encodeVarint l.length ++ l

/-- Encoding of field 2 (varint, key byte `2 <<< 3 ||| 0 = 16`); an absent
optional field is omitted. -/
def encodeField2 : Option Nat → List Nat
  | none => []
  | some v => encodeVarint 16 ++ encodeVarint v

/-- Protobuf (proto3) encoding of a `ProtoMsg`: the concatenation of its
encoded fields in field-number order. -/
def encodeMsg (m : ProtoMsg) : List Nat :=
  encodeField1 m.field1 ++ encodeField2 m.field2

/-- Field-decoding loop of the protobuf decoder, with fuel bounded by the
input length (every iteration consumes at least one byte). -/
def decodeFields : Nat → List Nat → ProtoMsg → Option ProtoMsg
  | _, [], acc => some acc
  | 0, _ :: _, _ => none
  | fuel + 1, b :: bs, acc =>
    match decodeVarint (b :: bs) with
    | none => none
    | some (key, rest) =>
      if key = 10 then
        match decodeVarint rest with
        | none => none
        | some (len, rest2) =>
          if len ≤ rest2.length then
            decodeFields fuel (rest2.drop len) { acc with field1 := rest2.take len }
          else none
      else if key = 16 then
        match decodeVarint rest with
        | none => none
        | some (v, rest2) => decodeFields fuel rest2 { acc with field2 := some v }
      else none

/-- Protobuf decoding of a `ProtoMsg`: partial, fails on truncated,
malformed, or schema-mismatched bytes. -/
def decodeMsg (bytes : List Nat) : Option ProtoMsg :=
  decodeFields bytes.length bytes ⟨[], none⟩

theorem take_length_append {α : Type} (l₁ l₂ : List α) :
    (l₁ ++ l₂).take l₁.length = l₁ := by
  induction l₁ with
  | nil => simp
  | cons a t ih => simp [List.take, ih]

theorem drop_length_append {α : Type} (l₁ l₂ : List α) :
    (l₁ ++ l₂).drop l₁.length = l₂ := by
  induction l₁ with
  | nil => simp
  | cons a t ih => simp [List.drop, ih]

theorem encodeVarint_sixteen : encodeVarint 16 = [16] := by decide

theorem encodeVarint_ten : encodeVarint 10 = [10] := by decide

theorem decodeFields_encodeField2 (fuel : Nat) (f2 : Option Nat) (f1acc : List Nat)
    (hfuel : 1 ≤ fuel) :
    decodeFields fuel (encodeField2 f2) ⟨f1acc, none⟩ = some ⟨f1acc, f2⟩ := by
  match f2 with
  | none => cases fuel <;> simp [encodeField2, decodeFields]
  | some v =>
    match fuel with
    | f + 1 =>
      have hbytes : encodeField2 (some v) = 16 :: encodeVarint v := by
        rw [encodeField2, encodeVarint_sixteen, List.singleton_append]
      rw [hbytes, decodeFields]
      have hd : decodeVarint (16 :: encodeVarint v) = some (16, encodeVarint v) := by
        have := decodeVarint_encodeVarint 16 (encodeVarint v)
        rwa [encodeVarint_sixteen, List.singleton_append] at this
      rw [hd]
      have hv : decodeVarint (encodeVarint v) = some (v, []) := by
        have := decodeVarint_encodeVarint v []
        rwa [List.append_nil] at this
      simp only [hv]
      norm_num [decodeFields]

theorem decodeMsg_encodeMsg (m : ProtoMsg) : decodeMsg (encodeMsg m) = some m := by
  obtain ⟨f1, f2⟩ := m
  by_cases h1 : f1 = []
  · subst h1
    have he1 : encodeField1 ([] : List Nat) = [] := by simp [encodeField1]
    simp only [decodeMsg, encodeMsg, he1, List.nil_append]
    match f2 with
    | none => simp [encodeField2, decodeFields]
    | some v =>
      apply decodeFields_encodeField2
      rw [encodeField2, encodeVarint_sixteen]
      simp
  · -- field1 is non-empty: the encoding starts with key byte 10
    simp only [decodeMsg, encodeMsg, encodeField1, if_neg h1]
    have hshape : encodeVarint 10 ++ encodeVarint f1.length ++ f1 ++ encodeField2 f2
        = 10 :: (encodeVarint f1.length ++ (f1 ++ encodeField2 f2)) := by
      rw [encodeVarint_ten]
      simp
    rw [hshape, List.length_cons, decodeFields]
    have hd1 : decodeVarint (10 :: (encodeVarint f1.length ++ (f1 ++ encodeField2 f2)))
        = some (10, encodeVarint f1.length ++ (f1 ++ encodeField2 f2)) := by
      have := decodeVarint_encodeVarint 10 (encodeVarint f1.length ++ (f1 ++ encodeField2 f2))
      rwa [encodeVarint_ten, List.singleton_append] at this
    rw [hd1]
    simp only [if_pos rfl]
    rw [decodeVarint_encodeVarint f1.length (f1 ++ encodeField2 f2)]
    have hle : f1.length ≤ (f1 ++ encodeField2 f2).length := by simp
    simp only [hle, if_pos, take_length_append, drop_length_append]
    match f2 with
    | none => simp [encodeField2, decodeFields]
    | some v =>
      apply decodeFields_encodeField2
      have hpos : 0 < (encodeVarint f1.length).length :=
        List.length_pos.mpr (encodeVarint_ne_nil f1.length)
      simp
      omega

/-! ## Strings on the wire

Error bodies are produced in the source by `String::into_bytes` /
`b"..."` literals; strings are modelled via their character codes. -/

/-- The byte-level content of a string body (`into_bytes` in the source). -/
def strBytes (s : String) : List Nat := s.data.map Char.toNat

theorem strBytes_append (a b : String) :
    strBytes (a ++ b) = strBytes a ++ strBytes b := by
  simp [strBytes]

/-! ## HTTP model

`src/server/src/service.rs` receives a hyper `Request<Incoming>`: the parts
the code can observe are the method, the URI path, the headers and the body;
collecting the `Incoming` body (`collect().await?`) can fail with a
transport-level `hyper::Error`, modelled as the `Except` in `body`. -/

instance {ε α : Type} [DecidableEq ε] [DecidableEq α] : DecidableEq (Except ε α) :=
  fun a b =>
  match a, b with
  | .ok x, .ok y => if h : x = y then .isTrue (by rw [h]) else .isFalse (by simp [h])
  | .error x, .error y => if h : x = y then .isTrue (by rw [h]) else .isFalse (by simp [h])
  | .ok _, .error _ => .isFalse (by simp)
  | .error _, .ok _ => .isFalse (by simp)

structure HttpRequest where
  method : String
  path : String
  headers : List (String × String)
  body : Except String (List Nat)
deriving DecidableEq, Repr

structure HttpResponse where
  statusCode : Nat
  body : List Nat
deriving DecidableEq, Repr

/-- hyper's `Response::builder()` chain: it defaults to status `200 OK` and
records whether a previous chained call failed; `body` returns an error
(surfaced by `.unwrap()` in the source) exactly when a previous chained
call failed. -/
structure Builder where
  statusCode : Nat
  hasError : Bool
deriving DecidableEq, Repr

def Builder.new : Builder := ⟨200, false⟩

/-- `Builder::status`: hyper accepts any status code in `100..1000`;
an out-of-range code puts the builder into the error state. The source
only ever passes the valid constants `StatusCode::BAD_REQUEST` (400) and
`StatusCode::INTERNAL_SERVER_ERROR` (500). -/
def Builder.setStatus (b : Builder) (c : Nat) : Builder :=
  if 100 ≤ c ∧ c < 1000 then { b with statusCode := c } else { b with hasError := true }

/-- `Builder::body(...)` followed by the source's `.unwrap()`: `none`
models the panic that would occur if the builder were in an error state. -/
def Builder.setBody (b : Builder) (bytes : List Nat) : Option HttpResponse :=
  if b.hasError then none else some ⟨b.statusCode, bytes⟩

/-! ## Server dispatcher (`src/server/src/service.rs`) -/

/-- One registered operation as `handle_request` sees it: the generic
parameters `T: Message + Default`, `R: Message` and the bound handler
`F: Fn(Arc<Node>, T) -> Result<R, ldk_node::NodeError>`. The shared node
handle is opaque business state, so the handler is modelled as a function
of the request alone; `ldk_node::NodeError` is external and only observed
through `to_string()`, so an application failure is its display text. -/
structure Operation where
  T : Type
  R : Type
  decodeT : List Nat → Option T
  encodeR : R → List Nat
  handler : T → Except String R

/-- `handle_request` of `src/server/src/service.rs`: collect the body
(`?` propagates a transport failure), `T::decode` it, run the handler,
and build the response: success → default status (200) with the encoded
value, handler error → 500 with the error's display text, decode error →
400 with the fixed text `"Error parsing request"`. -/
def handle_request (op : Operation) (request : HttpRequest) :
    Except String (Option HttpResponse) :=
  match request.body with
  | .error e => .error e
  | .ok bytes =>
    match op.decodeT bytes with
    | some req =>
      match op.handler req with
      | .ok response => .ok (Builder.new.setBody (op.encodeR response))
      | .error e => .ok ((Builder.new.setStatus 500).setBody (strBytes e))
    | none => .ok ((Builder.new.setStatus 400).setBody (strBytes "Error parsing request"))

namespace Server

/-- Modelled from the spec: `ONCHAIN_RECEIVE_PATH` is declared in
`crate::api::onchain_receive`, which is not under src/; per the spec the
URI path is exactly the registered operation path behind the transport's
single fixed `/` prefix. -/
def ONCHAIN_RECEIVE_PATH : String := "/OnchainReceive"

/-- Modelled from the spec: `ONCHAIN_SEND_PATH` of `crate::api::onchain_send`
(not under src/). -/
def ONCHAIN_SEND_PATH : String := "/OnchainSend"

/-- Modelled from the spec: `BOLT11_RECEIVE_PATH` of
`crate::api::bolt11_receive` (not under src/). -/
def BOLT11_RECEIVE_PATH : String := "/Bolt11Receive"

end Server

/-- `NodeService::call`: match the request's URI path against the three
imported path constants and dispatch to `handle_request` with the bound
handler; any other path gets a `400 Bad Request` naming the unmatched path
(the body is never read on that branch). The three bound operations are
parameters because the `crate::api` handlers are external business logic. -/
def NodeService.call (onchainReceiveOp onchainSendOp bolt11ReceiveOp : Operation)
    (req : HttpRequest) : Except String (Option HttpResponse) :=
  if req.path = Server.ONCHAIN_RECEIVE_PATH then handle_request onchainReceiveOp req
  else if req.path = Server.ONCHAIN_SEND_PATH then handle_request onchainSendOp req
  else if req.path = Server.BOLT11_RECEIVE_PATH then handle_request bolt11ReceiveOp req
  else .ok ((Builder.new.setStatus 400).setBody
    (strBytes ("Unknown request: " ++ req.path)))

/-! ## Client stub set (`src/client/src/client.rs`) -/

namespace Client

def APPLICATION_OCTET_STREAM : String := "application/octet-stream"

def ONCHAIN_RECEIVE_PATH : String := "OnchainReceive"

def ONCHAIN_SEND_PATH : String := "OnchainSend"

def BOLT11_RECEIVE_PATH : String := "Bolt11Receive"

def BOLT11_SEND_PATH : String := "Bolt11Send"

def BOLT12_RECEIVE_PATH : String := "Bolt12Receive"

def BOLT12_SEND_PATH : String := "Bolt12Send"

def OPEN_CHANNEL_PATH : String := "OpenChannel"

def CLOSE_CHANNEL_PATH : String := "CloseChannel"

def LIST_CHANNELS_PATH : String := "ListChannels"

/-- Modelled from the spec: `LdkNodeServerError` is declared in
`src/client/src/error.rs`, which is not under src/; per the spec the
client-visible error type is a single variant carrying a human-readable
string. -/
inductive LdkNodeServerError where
  | InternalError (msg : String)
deriving DecidableEq, Repr

/-- One HTTP request as assembled and sent by `post_request` through the
reqwest `Client`. -/
structure SentRequest where
  method : String
  url : String
  headers : List (String × String)
  body : List Nat
deriving DecidableEq, Repr

/-- The response observed by `post_request`: a status code, and the result
of collecting the response body (`response_raw.bytes().await` can fail at
the transport level). -/
structure TransportResponse where
  statusCode : Nat
  bodyResult : Except String (List Nat)
deriving DecidableEq, Repr

/-- The reqwest transport: sending a request either fails before any HTTP
response exists (`Err(reqwest::Error)`, carried as its description) or
yields a response. -/
def Transport : Type := SentRequest → Except String TransportResponse

/-- Modelled from the spec: the `From<reqwest::Error>` conversion applied by
`?` in `post_request` lives in `src/client/src/error.rs` (not under src/);
the single-variant error type carries the failure's description. -/
def fromTransportError (e : String) : LdkNodeServerError := .InternalError e

/-- Modelled from the spec: the `From<prost::DecodeError>` conversion applied
by `?` on `Rs::decode` lives in `src/client/src/error.rs` (not under src/);
a decode failure propagates as a client error. -/
def fromDecodeError : LdkNodeServerError := .InternalError "Failed to decode response"

/-- reqwest's `StatusCode::is_success`: the 2xx range. -/
def isSuccess (status : Nat) : Prop := 200 ≤ status ∧ status < 300

instance (status : Nat) : Decidable (isSuccess status) := by
  unfold isSuccess
  infer_instance

/-- `LdkNodeServerClient::post_request`: encode the request, POST it to
`url` with the fixed `Content-Type: application/octet-stream` header,
convert a send failure into `InternalError(description)`, collect the
response bytes (`?`), then: success status → decode the payload (decode
failure propagating via `?`); any other status → the generic
`InternalError("Unknown Error")`. -/
def post_request {Rq Rs : Type} (encodeRq : Rq → List Nat)
    (decodeRs : List Nat → Option Rs) (client : Transport)
    (request : Rq) (url : String) : Except LdkNodeServerError Rs :=
  let request_body := encodeRq request
  match client ⟨"POST", url, [("content-type", APPLICATION_OCTET_STREAM)], request_body⟩ with
  | .error e => .error (fromTransportError e)
  | .ok response_raw =>
    match response_raw.bodyResult with
    | .error e => .error (fromTransportError e)
    | .ok payload =>
      if isSuccess response_raw.statusCode then
        match decodeRs payload with
        | some rs => .ok rs
        | none => .error fromDecodeError
      else .error (.InternalError "Unknown Error")

/-- `LdkNodeServerClient::onchain_receive`: one stub per operation; the
`protos` request/response types are represented by `ProtoMsg` and the
prost codec by `encodeMsg`/`decodeMsg` (see `ProtoMsg`). -/
def onchain_receive (base_url : String) (client : Transport) (request : ProtoMsg) :
    Except LdkNodeServerError ProtoMsg :=
  post_request encodeMsg decodeMsg client request
    ("http://" ++ base_url ++ "/" ++ ONCHAIN_RECEIVE_PATH)

def onchain_send (base_url : String) (client : Transport) (request : ProtoMsg) :
    Except LdkNodeServerError ProtoMsg :=
  post_request encodeMsg decodeMsg client request
    ("http://" ++ base_url ++ "/" ++ ONCHAIN_SEND_PATH)

def bolt11_receive (base_url : String) (client : Transport) (request : ProtoMsg) :
    Except LdkNodeServerError ProtoMsg :=
  post_request encodeMsg decodeMsg client request
    ("http://" ++ base_url ++ "/" ++ BOLT11_RECEIVE_PATH)

def bolt11_send (base_url : String) (client : Transport) (request : ProtoMsg) :
    Except LdkNodeServerError ProtoMsg :=
  post_request encodeMsg decodeMsg client request
    ("http://" ++ base_url ++ "/" ++ BOLT11_SEND_PATH)

def bolt12_receive (base_url : String) (client : Transport) (request : ProtoMsg) :
    Except LdkNodeServerError ProtoMsg :=
  post_request encodeMsg decodeMsg client request
    ("http://" ++ base_url ++ "/" ++ BOLT12_RECEIVE_PATH)

def bolt12_send (base_url : String) (client : Transport) (request : ProtoMsg) :
    Except LdkNodeServerError ProtoMsg :=
  post_request encodeMsg decodeMsg client request
    ("http://" ++ base_url ++ "/" ++ BOLT12_SEND_PATH)

def open_channel (base_url : String) (client : Transport) (request : ProtoMsg) :
    Except LdkNodeServerError ProtoMsg :=
  post_request encodeMsg decodeMsg client request
    ("http://" ++ base_url ++ "/" ++ OPEN_CHANNEL_PATH)

def close_channel (base_url : String) (client : Transport) (request : ProtoMsg) :
    Except LdkNodeServerError ProtoMsg :=
  post_request encodeMsg decodeMsg client request
    ("http://" ++ base_url ++ "/" ++ CLOSE_CHANNEL_PATH)

def list_channels (base_url : String) (client : Transport) (request : ProtoMsg) :
    Except LdkNodeServerError ProtoMsg :=
  post_request encodeMsg decodeMsg client request
    ("http://" ++ base_url ++ "/" ++ LIST_CHANNELS_PATH)

/-- The nine client path constants, in declaration order. -/
def clientPaths : List String :=
  [ONCHAIN_RECEIVE_PATH, ONCHAIN_SEND_PATH, BOLT11_RECEIVE_PATH, BOLT11_SEND_PATH,
   BOLT12_RECEIVE_PATH, BOLT12_SEND_PATH, OPEN_CHANNEL_PATH, CLOSE_CHANNEL_PATH,
   LIST_CHANNELS_PATH]

end Client

/-! ## Concrete instances used by witnesses and counterexamples -/

/-- An operation whose handler echoes the decoded message back. -/
def demoEchoOp : Operation :=
  { T := ProtoMsg, R := ProtoMsg, decodeT := decodeMsg, encodeR := encodeMsg,
    handler := fun m => .ok m }

/-- An operation whose handler reports an application-level failure. -/
def demoFailOp : Operation :=
  { T := ProtoMsg, R := ProtoMsg, decodeT := decodeMsg, encodeR := encodeMsg,
    handler := fun _ => .error "node unavailable" }

/-- A sample message with both fields populated. -/
def msgA : ProtoMsg := ⟨[104, 105], some 7⟩

/-- The request assembled by `post_request`: an HTTP POST to `url` with the
fixed content-type header and the encoded request body. -/
def Client.sentOf {Rq : Type} (encodeRq : Rq → List Nat) (request : Rq)
    (url : String) : Client.SentRequest :=
  ⟨"POST", url, [("content-type", Client.APPLICATION_OCTET_STREAM)], encodeRq request⟩

theorem post_request_eq {Rq Rs : Type} (encodeRq : Rq → List Nat)
    (decodeRs : List Nat → Option Rs) (client : Client.Transport)
    (request : Rq) (url : String) :
    Client.post_request encodeRq decodeRs client request url
      = match client (Client.sentOf encodeRq request url) with
        | .error e => .error (Client.fromTransportError e)
        | .ok response_raw =>
          match response_raw.bodyResult with
          | .error e => .error (Client.fromTransportError e)
          | .ok payload =>
            if Client.isSuccess response_raw.statusCode then
              match decodeRs payload with
              | some rs => .ok rs
              | none => .error Client.fromDecodeError
            else .error (.InternalError "Unknown Error") := rfl

/-! ## Claims -/

/-- C1 (as amended): the client stub set exposes exactly one stub per each of
the nine operation paths, which are pairwise distinct; the server's path
match dispatches only the three paths OnchainReceive, OnchainSend and
Bolt11Receive to bound handlers, and each of the remaining six operation
paths (Bolt11Send, Bolt12Receive, Bolt12Send, OpenChannel, CloseChannel,
ListChannels) falls into the unknown-path branch. -/
theorem operation_coverage (op1 op2 op3 : Operation) (req : HttpRequest) :
    Client.clientPaths.Nodup
    ∧ Client.clientPaths.length = 9
    ∧ (req.path = Server.ONCHAIN_RECEIVE_PATH →
        NodeService.call op1 op2 op3 req = handle_request op1 req)
    ∧ (req.path = Server.ONCHAIN_SEND_PATH →
        NodeService.call op1 op2 op3 req = handle_request op2 req)
    ∧ (req.path = Server.BOLT11_RECEIVE_PATH →
        NodeService.call op1 op2 op3 req = handle_request op3 req)
    ∧ (req.path ∈ ["/Bolt11Send", "/Bolt12Receive", "/Bolt12Send",
                   "/OpenChannel", "/CloseChannel", "/ListChannels"] →
        NodeService.call op1 op2 op3 req
          = .ok ((Builder.new.setStatus 400).setBody
              (strBytes ("Unknown request: " ++ req.path)))) := by
  refine ⟨by decide, by decide, ?_, ?_, ?_, ?_⟩
  · intro h
    simp [NodeService.call, h]
  · intro h
    have : Server.ONCHAIN_SEND_PATH ≠ Server.ONCHAIN_RECEIVE_PATH := by decide
    simp [NodeService.call, h, this]
  · intro h
    have h1 : Server.BOLT11_RECEIVE_PATH ≠ Server.ONCHAIN_RECEIVE_PATH := by decide
    have h2 : Server.BOLT11_RECEIVE_PATH ≠ Server.ONCHAIN_SEND_PATH := by decide
    simp [NodeService.call, h, h1, h2]
  · intro h
    simp only [List.mem_cons, List.not_mem_nil, or_false] at h
    rcases h with h | h | h | h | h | h <;>
      simp [NodeService.call, h, Server.ONCHAIN_RECEIVE_PATH,
        Server.ONCHAIN_SEND_PATH, Server.BOLT11_RECEIVE_PATH]

/-- Witness for C1 (amended): dispatching `POST /OnchainReceive` goes to the
first bound handler. -/
theorem operation_coverage_witness :
    NodeService.call demoEchoOp demoFailOp demoFailOp
      ⟨"POST", "/OnchainReceive", [], .ok []⟩
      = handle_request demoEchoOp ⟨"POST", "/OnchainReceive", [], .ok []⟩ :=
  (operation_coverage demoEchoOp demoFailOp demoFailOp
    ⟨"POST", "/OnchainReceive", [], .ok []⟩).2.2.1 rfl

/-- C1 fails as stated: with a handler bound on every match arm, dispatching
`POST /Bolt11Send` falls into the unknown-path branch and yields the 400
unknown-request response, although the bound echo handler on that request
would have produced a 200 response with the encoded echo. -/
theorem bolt11_send_not_dispatched :
    NodeService.call demoEchoOp demoEchoOp demoEchoOp
      ⟨"POST", "/Bolt11Send", [], .ok []⟩
      = .ok (some ⟨400, strBytes "Unknown request: /Bolt11Send"⟩)
    ∧ handle_request demoEchoOp ⟨"POST", "/Bolt11Send", [], .ok []⟩
      = .ok (some ⟨200, []⟩) := by
  constructor
  · decide
  · decide

/-- C2: for a request on a registered path whose body decodes, the response
is determined exactly by the handler's result: a success value yields status
200 with its Codec encoding as body, an application-level failure yields
status 500 with the failure's display text as body. -/
theorem handler_result_determines_response (op : Operation) (req : HttpRequest)
    (bytes : List Nat) (t : op.T)
    (hbody : req.body = .ok bytes) (hdec : op.decodeT bytes = some t) :
    handle_request op req
      = .ok (match op.handler t with
             | .ok r => some ⟨200, op.encodeR r⟩
             | .error e => some ⟨500, strBytes e⟩) := by
  unfold handle_request
  rw [hbody]
  dsimp only
  rw [hdec]
  dsimp only
  cases h : op.handler t <;>
    norm_num [Builder.new, Builder.setStatus, Builder.setBody]

/-- Witness for C2: the echo handler on a decodable body yields 200 with the
re-encoded message. -/
theorem handler_result_determines_response_witness :
    handle_request demoEchoOp ⟨"POST", "/OnchainReceive", [], .ok (encodeMsg msgA)⟩
      = .ok (some ⟨200, encodeMsg msgA⟩) := by
  have h := handler_result_determines_response demoEchoOp
    ⟨"POST", "/OnchainReceive", [], .ok (encodeMsg msgA)⟩ (encodeMsg msgA) msgA rfl
    (by show decodeMsg (encodeMsg msgA) = some msgA; decide)
  simpa [demoEchoOp] using h

/-- C3: a request whose path matches none of the registered operations gets
status 400 with a body that contains the literal unmatched path, for every
choice of bound handlers (so no handler is invoked). -/
theorem unknown_path_yields_400 (op1 op2 op3 : Operation) (req : HttpRequest)
    (h1 : req.path ≠ Server.ONCHAIN_RECEIVE_PATH)
    (h2 : req.path ≠ Server.ONCHAIN_SEND_PATH)
    (h3 : req.path ≠ Server.BOLT11_RECEIVE_PATH) :
    NodeService.call op1 op2 op3 req
      = .ok (some ⟨400, strBytes ("Unknown request: " ++ req.path)⟩)
    ∧ ∃ pre suf, strBytes ("Unknown request: " ++ req.path)
        = pre ++ strBytes req.path ++ suf := by
  constructor
  · unfold NodeService.call
    rw [if_neg h1, if_neg h2, if_neg h3]
    norm_num [Builder.new, Builder.setStatus, Builder.setBody]
  · refine ⟨strBytes "Unknown request: ", [], ?_⟩
    rw [strBytes_append]
    simp

/-- Witness for C3: dispatching `POST /DoesNotExist` yields 400 with the
path named in the body. -/
theorem unknown_path_yields_400_witness :
    NodeService.call demoEchoOp demoEchoOp demoEchoOp
      ⟨"POST", "/DoesNotExist", [], .ok []⟩
      = .ok (some ⟨400, strBytes ("Unknown request: " ++ "/DoesNotExist")⟩)
    ∧ ∃ pre suf, strBytes ("Unknown request: " ++ "/DoesNotExist")
        = pre ++ strBytes "/DoesNotExist" ++ suf :=
  unknown_path_yields_400 demoEchoOp demoEchoOp demoEchoOp
    ⟨"POST", "/DoesNotExist", [], .ok []⟩ (by decide) (by decide) (by decide)

/-- C4: on a registered path, a body that fails to decode yields status 400
with the fixed generic text `"Error parsing request"` — the same body for
every operation, every decode failure and every handler, so the underlying
decode reason is not surfaced and the bound handler is never invoked. -/
theorem decode_failure_yields_400 (op : Operation) (req : HttpRequest)
    (bytes : List Nat)
    (hbody : req.body = .ok bytes) (hdec : op.decodeT bytes = none) :
    handle_request op req = .ok (some ⟨400, strBytes "Error parsing request"⟩) := by
  unfold handle_request
  rw [hbody]
  dsimp only
  rw [hdec]
  norm_num [Builder.new, Builder.setStatus, Builder.setBody]

/-- Witness for C4: the byte string `[0xFF]` is a truncated varint, so it
fails to decode and is rejected with the fixed parsing-error text. -/
theorem decode_failure_yields_400_witness :
    handle_request demoEchoOp ⟨"POST", "/OnchainReceive", [], .ok [255]⟩
      = .ok (some ⟨400, strBytes "Error parsing request"⟩) :=
  decode_failure_yields_400 demoEchoOp ⟨"POST", "/OnchainReceive", [], .ok [255]⟩
    [255] rfl (by show decodeMsg [255] = none; decide)

/-- C5: whenever the transport delivers a response whose status is not a
success status, the client returns the one generic
`InternalError "Unknown Error"`, whatever the status code and whatever the
response body bytes. -/
theorem non_success_collapsed_to_unknown_error {Rq Rs : Type}
    (encodeRq : Rq → List Nat) (decodeRs : List Nat → Option Rs)
    (client : Client.Transport) (request : Rq) (url : String)
    (resp : Client.TransportResponse) (payload : List Nat)
    (hsent : client (Client.sentOf encodeRq request url) = .ok resp)
    (hbody : resp.bodyResult = .ok payload)
    (hfail : ¬ Client.isSuccess resp.statusCode) :
    Client.post_request encodeRq decodeRs client request url
      = .error (.InternalError "Unknown Error") := by
  rw [post_request_eq, hsent]
  dsimp only
  rw [hbody]
  simp [hfail]

/-- Witness for C5: a 500 response with body `"boom"` is collapsed to the
generic unknown-error value. -/
theorem non_success_collapsed_witness :
    Client.post_request encodeMsg decodeMsg
      (fun _ => .ok ⟨500, .ok (strBytes "boom")⟩) msgA "localhost:3000/OnchainReceive"
      = .error (.InternalError "Unknown Error") :=
  non_success_collapsed_to_unknown_error encodeMsg decodeMsg
    (fun _ => .ok ⟨500, .ok (strBytes "boom")⟩) msgA "localhost:3000/OnchainReceive"
    ⟨500, .ok (strBytes "boom")⟩ (strBytes "boom") rfl rfl (by decide)

/-- The client stub set: each of the nine stub methods paired with the
operation path whose URL it posts to, in declaration order. -/
def Client.stubs :
    List ((String → Client.Transport → ProtoMsg → Except Client.LdkNodeServerError ProtoMsg)
      × String) :=
  [(Client.onchain_receive, Client.ONCHAIN_RECEIVE_PATH),
   (Client.onchain_send, Client.ONCHAIN_SEND_PATH),
   (Client.bolt11_receive, Client.BOLT11_RECEIVE_PATH),
   (Client.bolt11_send, Client.BOLT11_SEND_PATH),
   (Client.bolt12_receive, Client.BOLT12_RECEIVE_PATH),
   (Client.bolt12_send, Client.BOLT12_SEND_PATH),
   (Client.open_channel, Client.OPEN_CHANNEL_PATH),
   (Client.close_channel, Client.CLOSE_CHANNEL_PATH),
   (Client.list_channels, Client.LIST_CHANNELS_PATH)]

theorem post_request_contract {Rq Rs : Type} (encodeRq : Rq → List Nat)
    (decodeRs : List Nat → Option Rs) (client : Client.Transport)
    (request : Rq) (url : String) :
    (∀ client2 : Client.Transport,
        client2 (Client.sentOf encodeRq request url)
          = client (Client.sentOf encodeRq request url) →
        Client.post_request encodeRq decodeRs client2 request url
          = Client.post_request encodeRq decodeRs client request url)
    ∧ (∀ e, client (Client.sentOf encodeRq request url) = .error e →
        Client.post_request encodeRq decodeRs client request url
          = .error (.InternalError e))
    ∧ (∀ resp payload rs, client (Client.sentOf encodeRq request url) = .ok resp →
        resp.bodyResult = .ok payload → Client.isSuccess resp.statusCode →
        decodeRs payload = some rs →
        Client.post_request encodeRq decodeRs client request url = .ok rs)
    ∧ (∀ resp payload, client (Client.sentOf encodeRq request url) = .ok resp →
        resp.bodyResult = .ok payload → Client.isSuccess resp.statusCode →
        decodeRs payload = none →
        Client.post_request encodeRq decodeRs client request url
          = .error Client.fromDecodeError) := by
  refine ⟨?_, ?_, ?_, ?_⟩
  · intro client2 hagree
    rw [post_request_eq, post_request_eq, hagree]
  · intro e hsent
    rw [post_request_eq, hsent]
    rfl
  · intro resp payload rs hsent hbody hsuccess hdec
    rw [post_request_eq, hsent]
    dsimp only
    rw [hbody]
    simp [hsuccess, hdec]
  · intro resp payload hsent hbody hsuccess hdec
    rw [post_request_eq, hsent]
    dsimp only
    rw [hbody]
    simp [hsuccess, hdec]

/-- C6: every client stub — one per operation, as enumerated by
`Client.stubs` — issues exactly one HTTP POST, described by `Client.sentOf`,
to `http://{base_url}/{operation_path}` with the fixed content-type header
and the Codec encoding of the request as body: the stub equals
`post_request` at that URL, its outcome depends on the transport only
through its answer to that single request, a transport failure becomes
`InternalError` carrying the failure's description, and on a success status
it returns the decode of the response body, a decode failure propagating as
a client error. -/
theorem client_stub_single_post
    (stub : String → Client.Transport → ProtoMsg → Except Client.LdkNodeServerError ProtoMsg)
    (path : String) (hmem : (stub, path) ∈ Client.stubs)
    (base_url : String) (client : Client.Transport) (request : ProtoMsg) :
    (stub base_url client request
      = Client.post_request encodeMsg decodeMsg client request
          ("http://" ++ base_url ++ "/" ++ path))
    ∧ (∀ client2 : Client.Transport,
        client2 (Client.sentOf encodeMsg request ("http://" ++ base_url ++ "/" ++ path))
          = client (Client.sentOf encodeMsg request ("http://" ++ base_url ++ "/" ++ path)) →
        stub base_url client2 request = stub base_url client request)
    ∧ (∀ e, client (Client.sentOf encodeMsg request
            ("http://" ++ base_url ++ "/" ++ path)) = .error e →
        stub base_url client request = .error (.InternalError e))
    ∧ (∀ resp payload rs,
        client (Client.sentOf encodeMsg request
            ("http://" ++ base_url ++ "/" ++ path)) = .ok resp →
        resp.bodyResult = .ok payload → Client.isSuccess resp.statusCode →
        decodeMsg payload = some rs →
        stub base_url client request = .ok rs)
    ∧ (∀ resp payload,
        client (Client.sentOf encodeMsg request
            ("http://" ++ base_url ++ "/" ++ path)) = .ok resp →
        resp.bodyResult = .ok payload → Client.isSuccess resp.statusCode →
        decodeMsg payload = none →
        stub base_url client request = .error Client.fromDecodeError) := by
  simp only [Client.stubs, List.mem_cons, List.not_mem_nil, or_false,
    Prod.mk.injEq] at hmem
  rcases hmem with ⟨hs, hp⟩ | ⟨hs, hp⟩ | ⟨hs, hp⟩ | ⟨hs, hp⟩ | ⟨hs, hp⟩
    | ⟨hs, hp⟩ | ⟨hs, hp⟩ | ⟨hs, hp⟩ | ⟨hs, hp⟩ <;>
    subst hs <;> subst hp <;>
    exact ⟨rfl,
      (post_request_contract encodeMsg decodeMsg client request _).1,
      (post_request_contract encodeMsg decodeMsg client request _).2.1,
      (post_request_contract encodeMsg decodeMsg client request _).2.2.1,
      (post_request_contract encodeMsg decodeMsg client request _).2.2.2⟩

/-- Witness for C6: the `close_channel` stub is in the stub set, and a
transport that fails with "connection refused" makes it return
`InternalError "connection refused"`. -/
theorem client_stub_single_post_witness :
    Client.close_channel "localhost:3000" (fun _ => .error "connection refused") msgA
      = .error (.InternalError "connection refused") :=
  (client_stub_single_post Client.close_channel Client.CLOSE_CHANNEL_PATH
    (by simp [Client.stubs]) "localhost:3000"
    (fun _ => .error "connection refused") msgA).2.2.1 "connection refused" rfl

/-- C7: for every message value, decoding the bytes produced by encoding it
yields the value again — the codec round-trips. -/
theorem codec_round_trip (m : ProtoMsg) : decodeMsg (encodeMsg m) = some m :=
  decodeMsg_encodeMsg m

/-- C8: the server's response is a function of the request's URI path and
body alone — two requests agreeing on path and body but differing in
method, Content-Type, or any other header get identical responses. -/
theorem response_depends_only_on_path_and_body (op1 op2 op3 : Operation)
    (r1 r2 : HttpRequest) (hpath : r1.path = r2.path) (hbody : r1.body = r2.body) :
    NodeService.call op1 op2 op3 r1 = NodeService.call op1 op2 op3 r2 := by
  unfold NodeService.call handle_request
  rw [hpath, hbody]

/-- Witness for C8: changing the method from POST to GET and replacing the
Content-Type header leaves the response unchanged. -/
theorem response_depends_only_on_path_and_body_witness :
    NodeService.call demoEchoOp demoEchoOp demoEchoOp
      ⟨"POST", "/OnchainReceive", [("content-type", "application/octet-stream")], .ok []⟩
      = NodeService.call demoEchoOp demoEchoOp demoEchoOp
      ⟨"GET", "/OnchainReceive", [("content-type", "text/plain"), ("x-extra", "1")], .ok []⟩ :=
  response_depends_only_on_path_and_body demoEchoOp demoEchoOp demoEchoOp
    ⟨"POST", "/OnchainReceive", [("content-type", "application/octet-stream")], .ok []⟩
    ⟨"GET", "/OnchainReceive", [("content-type", "text/plain"), ("x-extra", "1")], .ok []⟩
    rfl rfl

/-- C9: the future returned by `call` resolves to `Ok(response)` on every
branch — unknown path, decode failure, handler failure, handler success —
except that a transport-level failure while collecting the request body is
returned as the service-level error; no branch panics (the builder `unwrap`
is always `some`). -/
theorem call_resolves_ok (op1 op2 op3 : Operation) (req : HttpRequest) :
    (∃ resp, NodeService.call op1 op2 op3 req = .ok (some resp))
    ∨ (∃ e, req.body = .error e ∧ NodeService.call op1 op2 op3 req = .error e) := by
  unfold NodeService.call handle_request
  by_cases hp1 : req.path = Server.ONCHAIN_RECEIVE_PATH
  case neg =>
    by_cases hp2 : req.path = Server.ONCHAIN_SEND_PATH
    case neg =>
      by_cases hp3 : req.path = Server.BOLT11_RECEIVE_PATH
      case neg =>
        rw [if_neg hp1, if_neg hp2, if_neg hp3]
        exact .inl ⟨⟨400, strBytes ("Unknown request: " ++ req.path)⟩,
          by norm_num [Builder.new, Builder.setStatus, Builder.setBody]⟩
      case pos =>
        rw [if_neg hp1, if_neg hp2, if_pos hp3]
        cases hb : req.body with
        | error e => exact .inr ⟨e, rfl, by dsimp only⟩
        | ok bytes =>
          refine .inl ?_
          cases hd : op3.decodeT bytes with
          | none =>
            exact ⟨⟨400, strBytes "Error parsing request"⟩,
              by dsimp only; rw [hd]; norm_num [Builder.new, Builder.setStatus, Builder.setBody]⟩
          | some t =>
            cases hh : op3.handler t with
            | ok r =>
              exact ⟨⟨200, op3.encodeR r⟩,
                by dsimp only; rw [hd]; dsimp only; rw [hh];
                   norm_num [Builder.new, Builder.setStatus, Builder.setBody]⟩
            | error e =>
              exact ⟨⟨500, strBytes e⟩,
                by dsimp only; rw [hd]; dsimp only; rw [hh];
                   norm_num [Builder.new, Builder.setStatus, Builder.setBody]⟩
    case pos =>
      rw [if_neg hp1, if_pos hp2]
      cases hb : req.body with
      | error e => exact .inr ⟨e, rfl, by dsimp only⟩
      | ok bytes =>
        refine .inl ?_
        cases hd : op2.decodeT bytes with
        | none =>
          exact ⟨⟨400, strBytes "Error parsing request"⟩,
            by dsimp only; rw [hd]; norm_num [Builder.new, Builder.setStatus, Builder.setBody]⟩
        | some t =>
          cases hh : op2.handler t with
          | ok r =>
            exact ⟨⟨200, op2.encodeR r⟩,
              by dsimp only; rw [hd]; dsimp only; rw [hh];
                 norm_num [Builder.new, Builder.setStatus, Builder.setBody]⟩
          | error e =>
            exact ⟨⟨500, strBytes e⟩,
              by dsimp only; rw [hd]; dsimp only; rw [hh];
                 norm_num [Builder.new, Builder.setStatus, Builder.setBody]⟩
  case pos =>
    rw [if_pos hp1]
    cases hb : req.body with
    | error e => exact .inr ⟨e, rfl, by dsimp only⟩
    | ok bytes =>
      refine .inl ?_
      cases hd : op1.decodeT bytes with
      | none =>
        exact ⟨⟨400, strBytes "Error parsing request"⟩,
          by dsimp only; rw [hd]; norm_num [Builder.new, Builder.setStatus, Builder.setBody]⟩
      | some t =>
        cases hh : op1.handler t with
        | ok r =>
          exact ⟨⟨200, op1.encodeR r⟩,
            by dsimp only; rw [hd]; dsimp only; rw [hh];
               norm_num [Builder.new, Builder.setStatus, Builder.setBody]⟩
        | error e =>
          exact ⟨⟨500, strBytes e⟩,
            by dsimp only; rw [hd]; dsimp only; rw [hh];
               norm_num [Builder.new, Builder.setStatus, Builder.setBody]⟩

/-- C10: every builder chain the dispatcher constructs — default status with
a body (handler success), status 400 with a body (unknown path and decode
failure) and status 500 with a body (handler failure) — produces a response
and never reaches the builder's error state, so the `unwrap` at each of the
four construction sites cannot panic. -/
theorem builder_chains_never_error (bytes : List Nat) :
    Builder.new.setBody bytes = some ⟨200, bytes⟩
    ∧ (Builder.new.setStatus 400).setBody bytes = some ⟨400, bytes⟩
    ∧ (Builder.new.setStatus 500).setBody bytes = some ⟨500, bytes⟩ := by
  norm_num [Builder.new, Builder.setStatus, Builder.setBody]
